import Mathlib

/-!
Shallow embedding of the token-construction core of `src/src/app/App.tsx`
(the `App` React component of the client-assertion / DPoP generator).

Modelling conventions:
* React `useState` fields become fields of `AppState`; the asynchronous
  `setX` calls inside `generateTokens` take effect sequentially, which is
  what the source observes since it works with local variables.
* `crypto.randomUUID` (the jti generator) and `generateKeyPair('ES256')`
  are entropy sources; they are modelled as draws from injective fresh
  supplies, realised as the counters `nextJti` and `nextKeyId` in the state.
* `importPKCS8` and SHA-256 are platform primitives; they are abstract
  functions supplied by an `Env`, together with the clock `now()`.
* A signed JWT is modelled structurally as its protected header, its
  payload claims and the key that produced the signature.
-/

/-- Opaque handle for the private key produced by a successful
`importPKCS8` call. -/
structure SigningKey where
  sid : Nat
deriving DecidableEq

/-- Public half of a DPoP key pair; `keyId` identifies the draw from the
key-generation entropy source. -/
structure PubKey where
  keyId : Nat
deriving DecidableEq

/-- Private half of a DPoP key pair. -/
structure PrivKey where
  keyId : Nat
deriving DecidableEq

/-- An ES256 key pair as returned by `generateKeyPair('ES256')`. -/
structure KeyPair where
  publicKey : PubKey
  privateKey : PrivKey
deriving DecidableEq

/-- The key pair produced by the n-th draw of the key-generation source. -/
def mkKeyPair (n : Nat) : KeyPair :=
  { publicKey := { keyId := n }, privateKey := { keyId := n } }

/-- JWK export of a public key, as produced by `exportJWK`. -/
structure Jwk where
  pub : PubKey
deriving DecidableEq

/-- Models `exportJWK(publicKey)` from App.tsx line 60. -/
def exportJWK (pk : PubKey) : Jwk := { pub := pk }

/-- Key used to sign a JWT: either the imported caller-supplied signing
key (client assertion) or the session DPoP private key (the proofs). -/
inductive SignKey where
  | imported : SigningKey → SignKey
  | sessionPriv : PrivKey → SignKey
deriving DecidableEq

/-- Protected JWT header, as passed to `setProtectedHeader`. -/
structure Header where
  alg : String
  typ : String
  jwk : Option Jwk
deriving DecidableEq

/-- JWT payload claims; a claim that a given token does not carry is
`none` (the jti, iat and exp claims are present in all four tokens). -/
structure Claims where
  iss : Option String
  sub : Option String
  aud : Option String
  jti : Nat
  htm : Option String
  htu : Option String
  iat : Nat
  exp : Nat
  ath : Option String
deriving DecidableEq

/-- A signed JWT in structural form: header, payload, signing key. -/
structure Jwt where
  header : Header
  claims : Claims
  signedWith : SignKey
deriving DecidableEq

/-- The `GeneratedTokens` bundle from App.tsx lines 5-11. -/
structure GeneratedTokens where
  clientAssertion : Jwt
  parDPoP : Jwt
  tokenDPoP : Jwt
  userinfoDPoP : Jwt
  dpopPublicJwk : Jwk
deriving DecidableEq

/-- The two failure points of `generateTokens`: the explicit input check
at lines 50-52 (thrown message 'Client ID and Private Key are required')
and a failing `importPKCS8` at line 63. -/
inductive GenError where
  | validationError : GenError
  | keyImportError : GenError
deriving DecidableEq

/-- The component state of App.tsx relevant to token generation, plus the
two fresh-supply counters modelling the entropy sources. -/
structure AppState where
  clientId : String
  privateKey : String
  accessToken : String
  tokens : Option GeneratedTokens
  dpopKeyPair : Option KeyPair
  error : Option GenError
  nextKeyId : Nat
  nextJti : Nat
deriving DecidableEq

/-- Platform environment of one `generateTokens` call: key import, the
SHA-256 digest (as the byte list of the hash of the UTF-8 encoded input
string), and the clock `now()` (App.tsx line 28). -/
structure Env where
  importPKCS8 : String → Option SigningKey
  sha256 : String → List Nat
  nowTime : Nat

/-- Models `generateJti` (App.tsx lines 24-26): `crypto.randomUUID`
modelled as the n-th draw of an injective fresh-ID supply. -/
def generateJti (n : Nat) : Nat := n

/-- Alphabet used by JavaScript `btoa` (standard base64). -/
def base64Chars : List Char :=
  ['A','B','C','D','E','F','G','H','I','J','K','L','M',
   'N','O','P','Q','R','S','T','U','V','W','X','Y','Z',
   'a','b','c','d','e','f','g','h','i','j','k','l','m',
   'n','o','p','q','r','s','t','u','v','w','x','y','z',
   '0','1','2','3','4','5','6','7','8','9','+','/']

/-- Character of the standard base64 alphabet at index n. -/
def b64Char (n : Nat) : Char := base64Chars.getD n 'A'

/-- Standard base64 with '=' padding over a byte sequence, as computed by
`btoa` on the binary string built at App.tsx lines 37-39. -/
def btoaChars : List Nat → List Char
  | [] => []
  | [b1] => [b64Char (b1 / 4), b64Char (b1 % 4 * 16), '=', '=']
  | [b1, b2] =>
      [b64Char (b1 / 4), b64Char (b1 % 4 * 16 + b2 / 16), b64Char (b2 % 16 * 4), '=']
  | b1 :: b2 :: b3 :: rest =>
      b64Char (b1 / 4) :: b64Char (b1 % 4 * 16 + b2 / 16) ::
        b64Char (b2 % 16 * 4 + b3 / 64) :: b64Char (b3 % 64) :: btoaChars rest

/-- Models the `.replace(/\+/g, '-')` step of App.tsx line 40. -/
def repPlus (c : Char) : Char := if c = '+' then '-' else c

/-- Models the `.replace(/\//g, '_')` step of App.tsx line 41. -/
def repSlash (c : Char) : Char := if c = '/' then '_' else c

/-- Models `calculateAth` (App.tsx lines 30-43): btoa of the SHA-256
digest bytes of the access token, then the global replacements + to -,
/ to _, and removal of all '=' padding. -/
def calculateAth (sha256 : String → List Nat) (accessToken : String) : String :=
  String.mk ((((btoaChars (sha256 accessToken)).map repPlus).map repSlash).filter
    (fun c => c != '='))

/-- Base64url alphabet ('-' and '_' at positions 62 and 63). -/
def base64UrlChars : List Char :=
  ['A','B','C','D','E','F','G','H','I','J','K','L','M',
   'N','O','P','Q','R','S','T','U','V','W','X','Y','Z',
   'a','b','c','d','e','f','g','h','i','j','k','l','m',
   'n','o','p','q','r','s','t','u','v','w','x','y','z',
   '0','1','2','3','4','5','6','7','8','9','-','_']

/-- Character of the base64url alphabet at index n. -/
def b64UrlChar (n : Nat) : Char := base64UrlChars.getD n 'A'

/-- Specification-side encoder, following the spec's words for the `ath`
claim: direct base64url encoding (url-safe alphabet) with no padding
characters, to be compared with `calculateAth` from the source. -/
def specBase64UrlChars : List Nat → List Char
  | [] => []
  | [b1] => [b64UrlChar (b1 / 4), b64UrlChar (b1 % 4 * 16)]
  | [b1, b2] =>
      [b64UrlChar (b1 / 4), b64UrlChar (b1 % 4 * 16 + b2 / 16), b64UrlChar (b2 % 16 * 4)]
  | b1 :: b2 :: b3 :: rest =>
      b64UrlChar (b1 / 4) :: b64UrlChar (b1 % 4 * 16 + b2 / 16) ::
        b64UrlChar (b2 % 16 * 4 + b3 / 64) :: b64UrlChar (b3 % 64) :: specBase64UrlChars rest

/-- Specification-side `ath` value: base64url of the digest, no padding. -/
def specBase64UrlNoPad (bytes : List Nat) : String := String.mk (specBase64UrlChars bytes)

/-- Fixed client-assertion audience (App.tsx line 72). -/
def AUD : String := "https://stg-id.singpass.gov.sg/fapi"

/-- Fixed PAR endpoint URL (App.tsx line 84). -/
def PAR_HTU : String := "https://stg-id.singpass.gov.sg/fapi/par"

/-- Fixed token endpoint URL (App.tsx line 99). -/
def TOKEN_HTU : String := "https://stg-id.singpass.gov.sg/fapi/token"

/-- Fixed userinfo endpoint URL (App.tsx line 114). -/
def USERINFO_HTU : String := "https://stg-id.singpass.gov.sg/fapi/userinfo"

/-- Token lifetime constant `ASSERTION_LIFETIME_SEC` (App.tsx line 66). -/
def ASSERTION_LIFETIME_SEC : Nat := 120

/-- The four signed JWTs and the exported JWK built at App.tsx lines
65-137, given the context captured at call time. The four `generateJti`
draws happen in source order: client assertion, PAR, TOKEN, USERINFO. -/
def buildBundle (env : Env) (clientId accessToken : String) (signingKey : SigningKey)
    (kp : KeyPair) (dpopPublicJwk : Jwk) (jtiBase : Nat) : GeneratedTokens :=
  { clientAssertion :=
      { header := { alg := "ES256", typ := "JWT", jwk := none },
        claims :=
          { iss := some clientId, sub := some clientId, aud := some AUD,
            jti := generateJti jtiBase, htm := none, htu := none,
            iat := env.nowTime, exp := env.nowTime + ASSERTION_LIFETIME_SEC, ath := none },
        signedWith := SignKey.imported signingKey },
    parDPoP :=
      { header := { alg := "ES256", typ := "dpop+jwt", jwk := some dpopPublicJwk },
        claims :=
          { iss := none, sub := none, aud := none,
            jti := generateJti (jtiBase + 1), htm := some "POST", htu := some PAR_HTU,
            iat := env.nowTime, exp := env.nowTime + ASSERTION_LIFETIME_SEC, ath := none },
        signedWith := SignKey.sessionPriv kp.privateKey },
    tokenDPoP :=
      { header := { alg := "ES256", typ := "dpop+jwt", jwk := some dpopPublicJwk },
        claims :=
          { iss := none, sub := none, aud := none,
            jti := generateJti (jtiBase + 2), htm := some "POST", htu := some TOKEN_HTU,
            iat := env.nowTime, exp := env.nowTime + ASSERTION_LIFETIME_SEC, ath := none },
        signedWith := SignKey.sessionPriv kp.privateKey },
    userinfoDPoP :=
      { header := { alg := "ES256", typ := "dpop+jwt", jwk := some dpopPublicJwk },
        claims :=
          { iss := none, sub := none, aud := none,
            jti := generateJti (jtiBase + 3), htm := some "GET", htu := some USERINFO_HTU,
            iat := env.nowTime, exp := env.nowTime + ASSERTION_LIFETIME_SEC,
            ath := if accessToken = "" then none
                   else some (calculateAth env.sha256 accessToken) },
        signedWith := SignKey.sessionPriv kp.privateKey },
    dpopPublicJwk := dpopPublicJwk }

/-- Continuation of `generateTokens` after the key pair is settled
(App.tsx lines 60-138): export the JWK, import the signing key (failing
with the key-import error), then build and store the bundle. Every exit
path determines the final `error` field, so the initial `setError(null)`
of line 46 is reflected by the explicit `error` value of each branch. -/
def afterKeyPair (env : Env) (s : AppState) (kp : KeyPair) : AppState :=
  match env.importPKCS8 s.privateKey with
  | none => { s with error := some GenError.keyImportError }
  | some signingKey =>
      { s with
          error := none,
          tokens := some (buildBundle env s.clientId s.accessToken signingKey kp
            (exportJWK kp.publicKey) s.nextJti),
          nextJti := s.nextJti + 4 }

/-- The lazy key-pair step of App.tsx lines 54-59: reuse the stored pair,
or draw a fresh one and store it; returns the pair in use together with
the updated state. -/
def keyStep (s : AppState) : KeyPair × AppState :=
  match s.dpopKeyPair with
  | some kp => (kp, s)
  | none =>
      (mkKeyPair s.nextKeyId,
       { s with dpopKeyPair := some (mkKeyPair s.nextKeyId),
                nextKeyId := s.nextKeyId + 1 })

/-- Models `generateTokens` (App.tsx lines 45-144): input validation
(lines 50-52, JS falsiness of a string is emptiness), lazy creation of
the DPoP key pair (lines 54-59, `keyStep`), then `afterKeyPair`. -/
def generateTokens (env : Env) (s : AppState) : AppState :=
  if s.clientId = "" ∨ s.privateKey = "" then
    { s with error := some GenError.validationError }
  else
    afterKeyPair env (keyStep s).2 (keyStep s).1

/-- Models `clearTokens` (App.tsx lines 180-183). -/
def clearTokens (s : AppState) : AppState :=
  { s with tokens := none, dpopKeyPair := none }

/-- One user-visible operation on the component: a generate click under a
given platform environment, a clear-tokens click, or editing an input. -/
inductive Op where
  | gen : Env → Op
  | reset : Op
  | setClientId : String → Op
  | setPrivateKey : String → Op
  | setAccessToken : String → Op

/-- State transition of a single operation. -/
def applyOp (o : Op) (s : AppState) : AppState :=
  match o with
  | Op.gen env => generateTokens env s
  | Op.reset => clearTokens s
  | Op.setClientId v => { s with clientId := v }
  | Op.setPrivateKey v => { s with privateKey := v }
  | Op.setAccessToken v => { s with accessToken := v }

/-- Run a sequence of operations. -/
def runOps : List Op → AppState → AppState
  | [], s => s
  | o :: os, s => runOps os (applyOp o s)

/-- Bundle produced by one operation: a successful generate yields its
stored bundle, every other operation yields none. -/
def opBundles (o : Op) (s : AppState) : List GeneratedTokens :=
  match o with
  | Op.gen env =>
      if (generateTokens env s).error = none
      then (generateTokens env s).tokens.toList
      else []
  | _ => []

/-- All bundles produced by successful generate calls along a run. -/
def traceBundles : List Op → AppState → List GeneratedTokens
  | [], _ => []
  | o :: os, s => opBundles o s ++ traceBundles os (applyOp o s)

/-- The four jti claims of a bundle, in build order. -/
def bundleJtis (b : GeneratedTokens) : List Nat :=
  [b.clientAssertion.claims.jti, b.parDPoP.claims.jti,
   b.tokenDPoP.claims.jti, b.userinfoDPoP.claims.jti]

/-- All jti claims of all bundles produced along a run. -/
def traceJtis (ops : List Op) (s : AppState) : List Nat :=
  ((traceBundles ops s).map bundleJtis).flatten

/-- Concrete environment whose key import always succeeds; used to
instantiate the general theorems at specific inputs. -/
def envOk : Env :=
  { importPKCS8 := fun _ => some { sid := 0 },
    sha256 := fun _ => [1, 2, 3],
    nowTime := 1000 }

/-- Concrete environment whose key import always fails. -/
def envBad : Env :=
  { importPKCS8 := fun _ => none,
    sha256 := fun _ => [1, 2, 3],
    nowTime := 1000 }

/-- Concrete starting state with valid inputs and an access token. -/
def stReady : AppState :=
  { clientId := "abc123", privateKey := "PEMKEY", accessToken := "xyz",
    tokens := none, dpopKeyPair := none, error := none,
    nextKeyId := 0, nextJti := 0 }

/-- Concrete starting state with an empty client ID. -/
def stEmpty : AppState :=
  { clientId := "", privateKey := "PEMKEY", accessToken := "",
    tokens := none, dpopKeyPair := none, error := none,
    nextKeyId := 0, nextJti := 0 }

/-- The bundle stored by the first successful generate call from
stReady under envOk. -/
def bundleW : GeneratedTokens :=
  buildBundle envOk "abc123" "xyz" { sid := 0 } (mkKeyPair 0)
    (exportJWK (mkKeyPair 0).publicKey) 0

/-! Helper lemmas: the base64url refinement. -/

/-- Applying both character replacements to a standard base64 character
yields the base64url character at the same index. -/
theorem rep_b64Char (n : Nat) : repSlash (repPlus (b64Char n)) = b64UrlChar n := by
  rcases Nat.lt_or_ge n 64 with h | h
  · exact (show ∀ m, m < 64 → repSlash (repPlus (b64Char m)) = b64UrlChar m by decide) n h
  · have h1 : base64Chars.length ≤ n := le_trans (by decide) h
    have h2 : base64UrlChars.length ≤ n := le_trans (by decide) h
    show repSlash (repPlus (base64Chars.getD n 'A')) = base64UrlChars.getD n 'A'
    rw [List.getD_eq_default _ _ h1, List.getD_eq_default _ _ h2]
    decide

/-- A base64url character is never a padding character. -/
theorem b64UrlChar_ne_pad (n : Nat) : (b64UrlChar n != '=') = true := by
  rcases Nat.lt_or_ge n 64 with h | h
  · exact (show ∀ m, m < 64 → (b64UrlChar m != '=') = true by decide) n h
  · have h2 : base64UrlChars.length ≤ n := le_trans (by decide) h
    show (base64UrlChars.getD n 'A' != '=') = true
    rw [List.getD_eq_default _ _ h2]
    decide

/-- The padding character is left unchanged by both replacements. -/
theorem rep_pad : repSlash (repPlus '=') = '=' := by decide

/-- Replace-then-strip-padding over btoa output gives exactly the direct
unpadded base64url encoding of a byte list. -/
theorem btoa_urlsafe : ∀ bs : List Nat,
    (((btoaChars bs).map repPlus).map repSlash).filter (fun c => c != '=') =
      specBase64UrlChars bs
  | [] => by simp [btoaChars, specBase64UrlChars]
  | [b1] => by
      simp only [btoaChars, specBase64UrlChars, List.map_cons, List.map_nil,
        rep_b64Char, rep_pad, List.filter_cons, List.filter_nil, b64UrlChar_ne_pad]
      simp
  | [b1, b2] => by
      simp only [btoaChars, specBase64UrlChars, List.map_cons, List.map_nil,
        rep_b64Char, rep_pad, List.filter_cons, List.filter_nil, b64UrlChar_ne_pad]
      simp
  | b1 :: b2 :: b3 :: rest => by
      have ih := btoa_urlsafe rest
      simp only [btoaChars, specBase64UrlChars, List.map_cons,
        rep_b64Char, List.filter_cons, b64UrlChar_ne_pad]
      simp only [if_pos trivial, ih]

/-- The source's `calculateAth` computes the spec's unpadded base64url of
the SHA-256 digest. -/
theorem calculateAth_eq_spec (sha256 : String → List Nat) (tok : String) :
    calculateAth sha256 tok = specBase64UrlNoPad (sha256 tok) := by
  unfold calculateAth specBase64UrlNoPad
  rw [btoa_urlsafe]

/-! Helper lemmas: one generateTokens call. -/

/-- Key step when a session pair already exists: it is reused as-is. -/
theorem keyStep_of_some (s : AppState) (kp : KeyPair) (h : s.dpopKeyPair = some kp) :
    keyStep s = (kp, s) := by
  unfold keyStep
  rw [h]

/-- Key step when no session pair exists: a fresh pair is drawn, stored,
and the key supply advances. -/
theorem keyStep_of_none (s : AppState) (h : s.dpopKeyPair = none) :
    keyStep s =
      (mkKeyPair s.nextKeyId,
       { s with dpopKeyPair := some (mkKeyPair s.nextKeyId),
                nextKeyId := s.nextKeyId + 1 }) := by
  unfold keyStep
  rw [h]

/-- After the key step the state stores exactly the pair in use, and all
fields other than `dpopKeyPair` and `nextKeyId` are untouched. -/
theorem keyStep_fields (s : AppState) :
    (keyStep s).2.dpopKeyPair = some (keyStep s).1 ∧
    (keyStep s).2.clientId = s.clientId ∧
    (keyStep s).2.privateKey = s.privateKey ∧
    (keyStep s).2.accessToken = s.accessToken ∧
    (keyStep s).2.tokens = s.tokens ∧
    (keyStep s).2.error = s.error ∧
    (keyStep s).2.nextJti = s.nextJti ∧
    s.nextKeyId ≤ (keyStep s).2.nextKeyId := by
  cases h : s.dpopKeyPair with
  | some kp => rw [keyStep_of_some s kp h]; exact ⟨h, rfl, rfl, rfl, rfl, rfl, rfl, le_refl _⟩
  | none => rw [keyStep_of_none s h]; exact ⟨rfl, rfl, rfl, rfl, rfl, rfl, rfl, Nat.le_succ _⟩

/-- Validation failure (empty client ID or signing key): only the error
field changes. -/
theorem generate_validation_fail (env : Env) (s : AppState)
    (h : s.clientId = "" ∨ s.privateKey = "") :
    generateTokens env s = { s with error := some GenError.validationError } := by
  unfold generateTokens
  rw [if_pos h]

/-- Past validation, a generate call is the key step followed by
the import-and-build continuation. -/
theorem generate_run (env : Env) (s : AppState)
    (hc : s.clientId ≠ "") (hp : s.privateKey ≠ "") :
    generateTokens env s = afterKeyPair env (keyStep s).2 (keyStep s).1 := by
  unfold generateTokens
  rw [if_neg (not_or.mpr ⟨hc, hp⟩)]

/-- Key-import failure: only the error field changes past the key step. -/
theorem afterKeyPair_import_fail (env : Env) (s : AppState) (kp : KeyPair)
    (hi : env.importPKCS8 s.privateKey = none) :
    afterKeyPair env s kp = { s with error := some GenError.keyImportError } := by
  unfold afterKeyPair
  rw [hi]

/-- Successful import: the bundle is built and stored, the error cleared,
and four jti draws are consumed. -/
theorem afterKeyPair_success (env : Env) (s : AppState) (kp : KeyPair) (k : SigningKey)
    (hi : env.importPKCS8 s.privateKey = some k) :
    afterKeyPair env s kp =
      { s with
          error := none,
          tokens := some (buildBundle env s.clientId s.accessToken k kp
            (exportJWK kp.publicKey) s.nextJti),
          nextJti := s.nextJti + 4 } := by
  unfold afterKeyPair
  rw [hi]

/-- Fields of the state untouched by the import-and-build continuation. -/
theorem afterKeyPair_fields (env : Env) (s : AppState) (kp : KeyPair) :
    (afterKeyPair env s kp).dpopKeyPair = s.dpopKeyPair ∧
    (afterKeyPair env s kp).nextKeyId = s.nextKeyId ∧
    (afterKeyPair env s kp).clientId = s.clientId ∧
    (afterKeyPair env s kp).privateKey = s.privateKey ∧
    (afterKeyPair env s kp).accessToken = s.accessToken := by
  unfold afterKeyPair
  cases env.importPKCS8 s.privateKey <;> exact ⟨rfl, rfl, rfl, rfl, rfl⟩

/-- A generate call never changes the three input fields. -/
theorem generate_inputs (env : Env) (s : AppState) :
    (generateTokens env s).clientId = s.clientId ∧
    (generateTokens env s).privateKey = s.privateKey ∧
    (generateTokens env s).accessToken = s.accessToken := by
  by_cases hv : s.clientId = "" ∨ s.privateKey = ""
  · rw [generate_validation_fail env s hv]; exact ⟨rfl, rfl, rfl⟩
  · push_neg at hv
    rw [generate_run env s hv.1 hv.2]
    obtain ⟨_, hcid, hpem, hat, _, _, _, _⟩ := keyStep_fields s
    obtain ⟨_, _, hc2, hp2, ha2⟩ := afterKeyPair_fields env (keyStep s).2 (keyStep s).1
    exact ⟨hc2.trans hcid, hp2.trans hpem, ha2.trans hat⟩

/-- Characterization of a successful call: validation passed, the import
succeeded, and the result is the key step plus the stored fresh bundle. -/
theorem generate_success_spec (env : Env) (s : AppState)
    (h : (generateTokens env s).error = none) :
    s.clientId ≠ "" ∧ s.privateKey ≠ "" ∧
    ∃ k, env.importPKCS8 s.privateKey = some k ∧
      generateTokens env s =
        { (keyStep s).2 with
            error := none,
            tokens := some (buildBundle env s.clientId s.accessToken k (keyStep s).1
              (exportJWK ((keyStep s).1).publicKey) s.nextJti),
            nextJti := s.nextJti + 4 } := by
  by_cases hv : s.clientId = "" ∨ s.privateKey = ""
  · rw [generate_validation_fail env s hv] at h
    exact Option.noConfusion h
  · push_neg at hv
    obtain ⟨hc, hp⟩ := hv
    rw [generate_run env s hc hp] at h ⊢
    obtain ⟨_, hcid, hpem, hat, _, _, hjti, _⟩ := keyStep_fields s
    cases hi : env.importPKCS8 ((keyStep s).2).privateKey with
    | none =>
        rw [afterKeyPair_import_fail env _ _ hi] at h
        exact Option.noConfusion h
    | some k =>
        refine ⟨hc, hp, k, ?_, ?_⟩
        · rw [hpem] at hi; exact hi
        · rw [afterKeyPair_success env _ _ k hi]
          simp [hcid, hat, hjti]

/-- A failed call stores no bundle and consumes no jti draw. -/
theorem generate_failure_spec (env : Env) (s : AppState)
    (h : (generateTokens env s).error ≠ none) :
    (generateTokens env s).tokens = s.tokens ∧
    (generateTokens env s).nextJti = s.nextJti := by
  by_cases hv : s.clientId = "" ∨ s.privateKey = ""
  · rw [generate_validation_fail env s hv]; exact ⟨rfl, rfl⟩
  · push_neg at hv
    obtain ⟨hc, hp⟩ := hv
    rw [generate_run env s hc hp] at h ⊢
    obtain ⟨_, _, _, _, htok, _, hjti, _⟩ := keyStep_fields s
    cases hi : env.importPKCS8 ((keyStep s).2).privateKey with
    | none =>
        rw [afterKeyPair_import_fail env _ _ hi]
        exact ⟨htok, hjti⟩
    | some k =>
        rw [afterKeyPair_success env _ _ k hi] at h
        exact absurd rfl h

/-- An existing session key pair is kept by any generate call. -/
theorem generate_keypair_some (env : Env) (s : AppState) (kp : KeyPair)
    (h : s.dpopKeyPair = some kp) :
    (generateTokens env s).dpopKeyPair = some kp := by
  by_cases hv : s.clientId = "" ∨ s.privateKey = ""
  · rw [generate_validation_fail env s hv]; exact h
  · push_neg at hv
    rw [generate_run env s hv.1 hv.2, keyStep_of_some s kp h,
      (afterKeyPair_fields env s kp).1]
    exact h

/-- With no session key pair and validation passing, a generate call
stores the fresh pair and advances the key supply, whether or not the
signing-key import then succeeds. -/
theorem generate_keypair_none (env : Env) (s : AppState)
    (h : s.dpopKeyPair = none) (hc : s.clientId ≠ "") (hp : s.privateKey ≠ "") :
    (generateTokens env s).dpopKeyPair = some (mkKeyPair s.nextKeyId) ∧
    (generateTokens env s).nextKeyId = s.nextKeyId + 1 := by
  rw [generate_run env s hc hp, keyStep_of_none s h]
  constructor
  · rw [(afterKeyPair_fields env _ _).1]
  · rw [(afterKeyPair_fields env _ _).2.1]

/-- The key supply only advances. -/
theorem generate_nextKeyId_mono (env : Env) (s : AppState) :
    s.nextKeyId ≤ (generateTokens env s).nextKeyId := by
  by_cases hv : s.clientId = "" ∨ s.privateKey = ""
  · rw [generate_validation_fail env s hv]
  · push_neg at hv
    rw [generate_run env s hv.1 hv.2,
      (afterKeyPair_fields env (keyStep s).2 (keyStep s).1).2.1]
    exact (keyStep_fields s).2.2.2.2.2.2.2

/-- The stored key pair's id stays below the key supply. -/
theorem generate_keybound (env : Env) (s : AppState)
    (h : ∀ kp, s.dpopKeyPair = some kp → kp.publicKey.keyId < s.nextKeyId) :
    ∀ kp, (generateTokens env s).dpopKeyPair = some kp →
      kp.publicKey.keyId < (generateTokens env s).nextKeyId := by
  by_cases hv : s.clientId = "" ∨ s.privateKey = ""
  · rw [generate_validation_fail env s hv]; exact h
  · push_neg at hv
    rw [generate_run env s hv.1 hv.2]
    intro kp hkp
    rw [(afterKeyPair_fields env (keyStep s).2 (keyStep s).1).1] at hkp
    rw [(afterKeyPair_fields env (keyStep s).2 (keyStep s).1).2.1]
    cases hd : s.dpopKeyPair with
    | some kp0 =>
        rw [keyStep_of_some s kp0 hd] at hkp ⊢
        exact h kp hkp
    | none =>
        rw [keyStep_of_none s hd] at hkp ⊢
        have hkp2 : mkKeyPair s.nextKeyId = kp := Option.some.inj hkp
        rw [← hkp2]
        exact Nat.lt_succ_self s.nextKeyId

/-- Shape of a built bundle: the JWK argument is stored and carried in
all three DPoP proof headers. -/
theorem buildBundle_jwk (env : Env) (cid atk : String) (k : SigningKey)
    (kp : KeyPair) (jwk : Jwk) (n : Nat) :
    (buildBundle env cid atk k kp jwk n).dpopPublicJwk = jwk ∧
    (buildBundle env cid atk k kp jwk n).parDPoP.header.jwk = some jwk ∧
    (buildBundle env cid atk k kp jwk n).tokenDPoP.header.jwk = some jwk ∧
    (buildBundle env cid atk k kp jwk n).userinfoDPoP.header.jwk = some jwk :=
  ⟨rfl, rfl, rfl, rfl⟩

/-- The four jti claims of a built bundle are the four successive draws
starting at the base. -/
theorem buildBundle_jtis (env : Env) (cid atk : String) (k : SigningKey)
    (kp : KeyPair) (jwk : Jwk) (n : Nat) :
    bundleJtis (buildBundle env cid atk k kp jwk n) = [n, n + 1, n + 2, n + 3] :=
  rfl

/-- A successful generate call consumes exactly four jti draws. -/
theorem generate_success_nextJti (env : Env) (s : AppState)
    (h : (generateTokens env s).error = none) :
    (generateTokens env s).nextJti = s.nextJti + 4 := by
  obtain ⟨_, _, k, _, heq⟩ := generate_success_spec env s h
  rw [heq]

/-- The jti supply only advances. -/
theorem generate_nextJti_mono (env : Env) (s : AppState) :
    s.nextJti ≤ (generateTokens env s).nextJti := by
  by_cases h : (generateTokens env s).error = none
  · rw [generate_success_nextJti env s h]
    exact Nat.le_add_right _ 4
  · exact le_of_eq (generate_failure_spec env s h).2.symm

/-- No operation rolls the jti supply back. -/
theorem applyOp_nextJti_mono (o : Op) (s : AppState) :
    s.nextJti ≤ (applyOp o s).nextJti := by
  cases o with
  | gen env => exact generate_nextJti_mono env s
  | reset => exact le_refl _
  | setClientId v => exact le_refl _
  | setPrivateKey v => exact le_refl _
  | setAccessToken v => exact le_refl _

/-- The jti supply never rolls back along a run. -/
theorem runOps_nextJti_mono : ∀ (ops : List Op) (s : AppState),
    s.nextJti ≤ (runOps ops s).nextJti
  | [], _ => le_refl _
  | o :: os, s =>
      le_trans (applyOp_nextJti_mono o s) (runOps_nextJti_mono os (applyOp o s))

/-- Membership in the bundles of one operation means the operation was a
successful generate call yielding exactly that stored bundle. -/
theorem opBundles_gen_mem (env : Env) (s : AppState) (b : GeneratedTokens)
    (hb : b ∈ opBundles (Op.gen env) s) :
    (generateTokens env s).error = none ∧ (generateTokens env s).tokens = some b := by
  simp only [opBundles] at hb
  by_cases h : (generateTokens env s).error = none
  · rw [if_pos h] at hb
    refine ⟨h, ?_⟩
    cases ht : (generateTokens env s).tokens with
    | none => rw [ht] at hb; simp [Option.toList] at hb
    | some b0 =>
        rw [ht] at hb
        simp [Option.toList] at hb
        rw [hb]
  · rw [if_neg h] at hb
    simp at hb

/-- A successful call from a state holding session pair kp stores a
bundle built over kp and the base jti draw of the call. -/
theorem generate_bundle_of_some (env : Env) (s : AppState) (kp : KeyPair)
    (b : GeneratedTokens) (hkp : s.dpopKeyPair = some kp)
    (h : (generateTokens env s).error = none)
    (hb : (generateTokens env s).tokens = some b) :
    ∃ k, env.importPKCS8 s.privateKey = some k ∧
      b = buildBundle env s.clientId s.accessToken k kp (exportJWK kp.publicKey) s.nextJti := by
  obtain ⟨_, _, k, hi, heq⟩ := generate_success_spec env s h
  refine ⟨k, hi, ?_⟩
  rw [heq] at hb
  have hks : keyStep s = (kp, s) := keyStep_of_some s kp hkp
  rw [hks] at hb
  exact (Option.some.inj hb).symm

/-- Any bundle produced by a successful call is the built bundle over the
key pair settled by the key step, based at the pre-call jti supply. -/
theorem generate_bundle_spec (env : Env) (s : AppState) (b : GeneratedTokens)
    (h : (generateTokens env s).error = none)
    (hb : (generateTokens env s).tokens = some b) :
    ∃ k, env.importPKCS8 s.privateKey = some k ∧
      b = buildBundle env s.clientId s.accessToken k (keyStep s).1
        (exportJWK ((keyStep s).1).publicKey) s.nextJti := by
  obtain ⟨_, _, k, hi, heq⟩ := generate_success_spec env s h
  refine ⟨k, hi, ?_⟩
  rw [heq] at hb
  exact (Option.some.inj hb).symm

/-- Unfolding one step of the bundle trace. -/
theorem traceBundles_cons (o : Op) (os : List Op) (s : AppState) :
    traceBundles (o :: os) s = opBundles o s ++ traceBundles os (applyOp o s) := rfl

/-- Unfolding one step of the jti trace. -/
theorem traceJtis_cons (o : Op) (os : List Op) (s : AppState) :
    traceJtis (o :: os) s =
      ((opBundles o s).map bundleJtis).flatten ++ traceJtis os (applyOp o s) := by
  simp [traceJtis, traceBundles_cons]

/-- A successful call leaves the session slot holding exactly the pair
settled by the key step. -/
theorem generate_success_keypair (env : Env) (s : AppState)
    (h : (generateTokens env s).error = none) :
    (generateTokens env s).dpopKeyPair = some (keyStep s).1 := by
  obtain ⟨_, _, k, _, heq⟩ := generate_success_spec env s h
  rw [heq]
  exact (keyStep_fields s).1

/-- All jti claims along any run are pairwise distinct, and all are at
least the initial supply value. -/
theorem traceJtis_spec : ∀ (ops : List Op) (s : AppState),
    (traceJtis ops s).Nodup ∧ ∀ x ∈ traceJtis ops s, s.nextJti ≤ x
  | [], s => by simp [traceJtis, traceBundles]
  | o :: os, s => by
      obtain ⟨ihN, ihL⟩ := traceJtis_spec os (applyOp o s)
      have hmono := applyOp_nextJti_mono o s
      rw [traceJtis_cons]
      cases o with
      | gen env =>
          by_cases h : (generateTokens env s).error = none
          · obtain ⟨_, _, k, hi, heq⟩ := generate_success_spec env s h
            have htok : (generateTokens env s).tokens =
                some (buildBundle env s.clientId s.accessToken k (keyStep s).1
                  (exportJWK ((keyStep s).1).publicKey) s.nextJti) := by rw [heq]
            have hob : opBundles (Op.gen env) s =
                [buildBundle env s.clientId s.accessToken k (keyStep s).1
                  (exportJWK ((keyStep s).1).publicKey) s.nextJti] := by
              simp only [opBundles, if_pos h, htok, Option.toList]
            have hjti4 : (applyOp (Op.gen env) s).nextJti = s.nextJti + 4 :=
              generate_success_nextJti env s h
            rw [hob]
            simp only [List.map_cons, List.map_nil, List.flatten_cons, List.flatten_nil,
              List.append_nil, buildBundle_jtis]
            constructor
            · rw [List.nodup_append]
              refine ⟨?_, ihN, ?_⟩
              · simp
              · intro a ha hb
                have hge := ihL a hb
                rw [hjti4] at hge
                simp at ha
                omega
            · intro x hx
              rcases List.mem_append.mp hx with hx | hx
              · simp at hx
                omega
              · have hge := ihL x hx
                rw [hjti4] at hge
                omega
          · have hob : opBundles (Op.gen env) s = [] := by
              simp only [opBundles, if_neg h]
            rw [hob]
            simp only [List.map_nil, List.flatten_nil, List.nil_append]
            exact ⟨ihN, fun x hx => le_trans hmono (ihL x hx)⟩
      | reset =>
          simp only [opBundles, List.map_nil, List.flatten_nil, List.nil_append]
          exact ⟨ihN, fun x hx => le_trans hmono (ihL x hx)⟩
      | setClientId v =>
          simp only [opBundles, List.map_nil, List.flatten_nil, List.nil_append]
          exact ⟨ihN, fun x hx => le_trans hmono (ihL x hx)⟩
      | setPrivateKey v =>
          simp only [opBundles, List.map_nil, List.flatten_nil, List.nil_append]
          exact ⟨ihN, fun x hx => le_trans hmono (ihL x hx)⟩
      | setAccessToken v =>
          simp only [opBundles, List.map_nil, List.flatten_nil, List.nil_append]
          exact ⟨ihN, fun x hx => le_trans hmono (ihL x hx)⟩

/-- Along a run with no reset, an existing session pair survives and all
produced bundles carry its public JWK, both in the stored JWK and in all
three DPoP proof headers. -/
theorem runOps_keypair_stable : ∀ (ops : List Op) (s : AppState) (kp : KeyPair),
    s.dpopKeyPair = some kp → Op.reset ∉ ops →
    (runOps ops s).dpopKeyPair = some kp ∧
    ∀ b ∈ traceBundles ops s,
      b.dpopPublicJwk = exportJWK kp.publicKey ∧
      b.parDPoP.header.jwk = some (exportJWK kp.publicKey) ∧
      b.tokenDPoP.header.jwk = some (exportJWK kp.publicKey) ∧
      b.userinfoDPoP.header.jwk = some (exportJWK kp.publicKey)
  | [], s, kp, h, _ => ⟨h, by simp [traceBundles]⟩
  | o :: os, s, kp, h, hnr => by
      have hnr2 : Op.reset ∉ os := fun hx => hnr (List.mem_cons_of_mem o hx)
      have hkeep : (applyOp o s).dpopKeyPair = some kp := by
        cases o with
        | gen env => exact generate_keypair_some env s kp h
        | reset => exact absurd (List.mem_cons_self _ _) hnr
        | setClientId v => exact h
        | setPrivateKey v => exact h
        | setAccessToken v => exact h
      obtain ⟨ihS, ihB⟩ := runOps_keypair_stable os (applyOp o s) kp hkeep hnr2
      refine ⟨ihS, ?_⟩
      intro b hb
      rw [traceBundles_cons] at hb
      rcases List.mem_append.mp hb with hb | hb
      · cases o with
        | gen env =>
            obtain ⟨hsucc, htok⟩ := opBundles_gen_mem env s b hb
            obtain ⟨k, hi, hbeq⟩ := generate_bundle_of_some env s kp b h hsucc htok
            rw [hbeq]
            exact buildBundle_jwk env s.clientId s.accessToken k kp
              (exportJWK kp.publicKey) s.nextJti
        | reset => simp [opBundles] at hb
        | setClientId v => simp [opBundles] at hb
        | setPrivateKey v => simp [opBundles] at hb
        | setAccessToken v => simp [opBundles] at hb
      · exact ihB b hb

/-- The key supply never rolls back under any operation. -/
theorem applyOp_nextKeyId_mono (o : Op) (s : AppState) :
    s.nextKeyId ≤ (applyOp o s).nextKeyId := by
  cases o with
  | gen env => exact generate_nextKeyId_mono env s
  | reset => exact le_refl _
  | setClientId v => exact le_refl _
  | setPrivateKey v => exact le_refl _
  | setAccessToken v => exact le_refl _

/-- The key supply never rolls back along a run. -/
theorem runOps_nextKeyId_mono : ∀ (ops : List Op) (s : AppState),
    s.nextKeyId ≤ (runOps ops s).nextKeyId
  | [], _ => le_refl _
  | o :: os, s =>
      le_trans (applyOp_nextKeyId_mono o s) (runOps_nextKeyId_mono os (applyOp o s))

/-- Any operation preserves the invariant that the stored pair's id is
below the key supply. -/
theorem applyOp_keybound (o : Op) (s : AppState)
    (h : ∀ kp, s.dpopKeyPair = some kp → kp.publicKey.keyId < s.nextKeyId) :
    ∀ kp, (applyOp o s).dpopKeyPair = some kp →
      kp.publicKey.keyId < (applyOp o s).nextKeyId := by
  cases o with
  | gen env => exact generate_keybound env s h
  | reset => intro kp hkp; exact Option.noConfusion hkp
  | setClientId v => exact h
  | setPrivateKey v => exact h
  | setAccessToken v => exact h

/-- The key id of every bundle produced along a run stays below the final
key supply, provided the starting state satisfies the supply invariant. -/
theorem traceBundles_keybound : ∀ (ops : List Op) (s : AppState),
    (∀ kp, s.dpopKeyPair = some kp → kp.publicKey.keyId < s.nextKeyId) →
    ∀ b ∈ traceBundles ops s, b.dpopPublicJwk.pub.keyId < (runOps ops s).nextKeyId
  | [], s, _ => by simp [traceBundles]
  | o :: os, s, h => by
      intro b hb
      rw [traceBundles_cons] at hb
      have h2 := applyOp_keybound o s h
      rcases List.mem_append.mp hb with hb | hb
      · cases o with
        | gen env =>
            obtain ⟨hsucc, htok⟩ := opBundles_gen_mem env s b hb
            obtain ⟨k, hi, hbeq⟩ := generate_bundle_spec env s b hsucc htok
            have hkp : (applyOp (Op.gen env) s).dpopKeyPair = some (keyStep s).1 :=
              generate_success_keypair env s hsucc
            have hlt := h2 (keyStep s).1 hkp
            have hle := runOps_nextKeyId_mono os (applyOp (Op.gen env) s)
            rw [hbeq]
            exact lt_of_lt_of_le hlt hle
        | reset => simp [opBundles] at hb
        | setClientId v => simp [opBundles] at hb
        | setPrivateKey v => simp [opBundles] at hb
        | setAccessToken v => simp [opBundles] at hb
      · exact traceBundles_keybound os (applyOp o s) h2 b hb

/-! The claims. -/

/-- C1: for every successful generate call, all four JWTs in the returned
bundle carry the same iat value, captured once per call from the clock,
and each token's exp equals that iat plus exactly 120 seconds. -/
theorem claim1_shared_iat_exp (env : Env) (s : AppState) (b : GeneratedTokens)
    (hok : (generateTokens env s).error = none)
    (hb : (generateTokens env s).tokens = some b) :
    b.clientAssertion.claims.iat = env.nowTime ∧
    b.parDPoP.claims.iat = env.nowTime ∧
    b.tokenDPoP.claims.iat = env.nowTime ∧
    b.userinfoDPoP.claims.iat = env.nowTime ∧
    b.clientAssertion.claims.exp = b.clientAssertion.claims.iat + 120 ∧
    b.parDPoP.claims.exp = b.parDPoP.claims.iat + 120 ∧
    b.tokenDPoP.claims.exp = b.tokenDPoP.claims.iat + 120 ∧
    b.userinfoDPoP.claims.exp = b.userinfoDPoP.claims.iat + 120 := by
  obtain ⟨k, hi, hbeq⟩ := generate_bundle_spec env s b hok hb
  rw [hbeq]
  exact ⟨rfl, rfl, rfl, rfl, rfl, rfl, rfl, rfl⟩

/-- Witness for C1 at a concrete successful call. -/
theorem claim1_witness :
    bundleW.clientAssertion.claims.iat = envOk.nowTime ∧
    bundleW.parDPoP.claims.iat = envOk.nowTime ∧
    bundleW.tokenDPoP.claims.iat = envOk.nowTime ∧
    bundleW.userinfoDPoP.claims.iat = envOk.nowTime ∧
    bundleW.clientAssertion.claims.exp = bundleW.clientAssertion.claims.iat + 120 ∧
    bundleW.parDPoP.claims.exp = bundleW.parDPoP.claims.iat + 120 ∧
    bundleW.tokenDPoP.claims.exp = bundleW.tokenDPoP.claims.iat + 120 ∧
    bundleW.userinfoDPoP.claims.exp = bundleW.userinfoDPoP.claims.iat + 120 :=
  claim1_shared_iat_exp envOk stReady bundleW (by decide) (by decide)

/-- C2: for every successful generate call, the userinfo DPoP proof
carries the ath claim iff the access token input was non-empty at call
time, and then ath is the unpadded base64url encoding of the SHA-256
digest of the access token. -/
theorem claim2_ath (env : Env) (s : AppState) (b : GeneratedTokens)
    (hok : (generateTokens env s).error = none)
    (hb : (generateTokens env s).tokens = some b) :
    (b.userinfoDPoP.claims.ath.isSome ↔ s.accessToken ≠ "") ∧
    (s.accessToken ≠ "" →
      b.userinfoDPoP.claims.ath =
        some (specBase64UrlNoPad (env.sha256 s.accessToken))) := by
  obtain ⟨k, hi, hbeq⟩ := generate_bundle_spec env s b hok hb
  rw [hbeq]
  constructor
  · by_cases ha : s.accessToken = ""
    · simp [buildBundle, ha]
    · simp [buildBundle, ha]
  · intro ha
    show (if s.accessToken = "" then none
          else some (calculateAth env.sha256 s.accessToken)) = _
    rw [if_neg ha, calculateAth_eq_spec]

/-- Witness for C2 at a concrete successful call with an access token. -/
theorem claim2_witness :
    (bundleW.userinfoDPoP.claims.ath.isSome ↔ stReady.accessToken ≠ "") ∧
    (stReady.accessToken ≠ "" →
      bundleW.userinfoDPoP.claims.ath =
        some (specBase64UrlNoPad (envOk.sha256 stReady.accessToken))) :=
  claim2_ath envOk stReady bundleW (by decide) (by decide)

/-- C3: along a sequence of operations with no reset, started by a
generate call from a state with no session pair and valid inputs: the
pair is created once, lazily, on that first call; every later state keeps
it; and the jwk in the header of each of the three DPoP proofs of every
produced bundle is the public half of that single pair. -/
theorem claim3_single_keypair (env0 : Env) (ops : List Op) (s : AppState)
    (h0 : s.dpopKeyPair = none) (hc : s.clientId ≠ "") (hp : s.privateKey ≠ "")
    (hnr : Op.reset ∉ ops) :
    (generateTokens env0 s).dpopKeyPair = some (mkKeyPair s.nextKeyId) ∧
    (runOps (Op.gen env0 :: ops) s).dpopKeyPair = some (mkKeyPair s.nextKeyId) ∧
    ∀ b ∈ traceBundles (Op.gen env0 :: ops) s,
      b.parDPoP.header.jwk = some (exportJWK (mkKeyPair s.nextKeyId).publicKey) ∧
      b.tokenDPoP.header.jwk = some (exportJWK (mkKeyPair s.nextKeyId).publicKey) ∧
      b.userinfoDPoP.header.jwk = some (exportJWK (mkKeyPair s.nextKeyId).publicKey) := by
  have hcreate : (generateTokens env0 s).dpopKeyPair = some (mkKeyPair s.nextKeyId) :=
    (generate_keypair_none env0 s h0 hc hp).1
  obtain ⟨hS, hB⟩ :=
    runOps_keypair_stable ops (applyOp (Op.gen env0) s) (mkKeyPair s.nextKeyId) hcreate hnr
  refine ⟨hcreate, hS, ?_⟩
  intro b hb
  rw [traceBundles_cons] at hb
  rcases List.mem_append.mp hb with hb | hb
  · obtain ⟨hsucc, htok⟩ := opBundles_gen_mem env0 s b hb
    obtain ⟨k, hi, hbeq⟩ := generate_bundle_spec env0 s b hsucc htok
    have hks : (keyStep s).1 = mkKeyPair s.nextKeyId := by
      rw [keyStep_of_none s h0]
    rw [hks] at hbeq
    rw [hbeq]
    have hj := buildBundle_jwk env0 s.clientId s.accessToken k (mkKeyPair s.nextKeyId)
      (exportJWK (mkKeyPair s.nextKeyId).publicKey) s.nextJti
    exact ⟨hj.2.1, hj.2.2.1, hj.2.2.2⟩
  · obtain ⟨_, h1, h2, h3⟩ := hB b hb
    exact ⟨h1, h2, h3⟩

/-- Witness for C3 at a concrete one-call run. -/
theorem claim3_witness :
    (generateTokens envOk stReady).dpopKeyPair = some (mkKeyPair stReady.nextKeyId) ∧
    (runOps [Op.gen envOk] stReady).dpopKeyPair = some (mkKeyPair stReady.nextKeyId) ∧
    bundleW.parDPoP.header.jwk =
      some (exportJWK (mkKeyPair stReady.nextKeyId).publicKey) :=
  have h := claim3_single_keypair envOk [] stReady rfl (by decide) (by decide) (by simp)
  ⟨h.1, h.2.1, (h.2.2 bundleW (by decide)).1⟩

/-- C4: every jti is unique per token: along any run, the four jti claims
of each produced bundle are pairwise distinct fresh draws and no jti ever
recurs across successive generate calls. -/
theorem claim4_jti_unique (ops : List Op) (s : AppState) :
    (traceJtis ops s).Nodup :=
  (traceJtis_spec ops s).1

/-- C5: reset discards both the stored bundle and the session key pair,
and the next generate call after the reset (with valid inputs) mints a
fresh key pair whose public key differs from the stored key of every
bundle produced before the reset. The hypothesis is the supply invariant
of reachable states: any stored pair's id is below the key supply. -/
theorem claim5_reset_fresh_key (ops : List Op) (s : AppState) (env1 : Env)
    (hinv : ∀ kp, s.dpopKeyPair = some kp → kp.publicKey.keyId < s.nextKeyId)
    (hc : (runOps ops s).clientId ≠ "") (hp : (runOps ops s).privateKey ≠ "") :
    (clearTokens (runOps ops s)).tokens = none ∧
    (clearTokens (runOps ops s)).dpopKeyPair = none ∧
    (generateTokens env1 (clearTokens (runOps ops s))).dpopKeyPair =
      some (mkKeyPair ((runOps ops s).nextKeyId)) ∧
    ∀ b ∈ traceBundles ops s,
      b.dpopPublicJwk ≠ exportJWK (mkKeyPair ((runOps ops s).nextKeyId)).publicKey := by
  refine ⟨rfl, rfl, ?_, ?_⟩
  · have h0 : (clearTokens (runOps ops s)).dpopKeyPair = none := rfl
    have hc2 : (clearTokens (runOps ops s)).clientId ≠ "" := hc
    have hp2 : (clearTokens (runOps ops s)).privateKey ≠ "" := hp
    exact (generate_keypair_none env1 (clearTokens (runOps ops s)) h0 hc2 hp2).1
  · intro b hb hkeq
    have hlt := traceBundles_keybound ops s hinv b hb
    rw [hkeq] at hlt
    exact lt_irrefl _ hlt

/-- Witness for C5 at a concrete run of one successful call. -/
theorem claim5_witness :
    (clearTokens (runOps [Op.gen envOk] stReady)).tokens = none ∧
    (clearTokens (runOps [Op.gen envOk] stReady)).dpopKeyPair = none ∧
    (generateTokens envOk (clearTokens (runOps [Op.gen envOk] stReady))).dpopKeyPair =
      some (mkKeyPair ((runOps [Op.gen envOk] stReady).nextKeyId)) ∧
    bundleW.dpopPublicJwk ≠
      exportJWK (mkKeyPair ((runOps [Op.gen envOk] stReady).nextKeyId)).publicKey :=
  have h := claim5_reset_fresh_key [Op.gen envOk] stReady envOk
    (fun kp hkp => Option.noConfusion hkp) (by decide) (by decide)
  ⟨h.1, h.2.1, h.2.2.1, h.2.2.2 bundleW (by decide)⟩

/-- C6: generate fails with the validation error when the client ID or
the signing-key PEM is the empty string, fails with the key-import error
when the PEM does not import, and in both failure cases the tokens slot
is left exactly as it was: no bundle, not even a partial one, is
produced by the failing call. -/
theorem claim6_failure_modes (env : Env) (s : AppState) :
    ((s.clientId = "" ∨ s.privateKey = "") →
      (generateTokens env s).error = some GenError.validationError ∧
      (generateTokens env s).tokens = s.tokens) ∧
    (s.clientId ≠ "" → s.privateKey ≠ "" → env.importPKCS8 s.privateKey = none →
      (generateTokens env s).error = some GenError.keyImportError ∧
      (generateTokens env s).tokens = s.tokens) := by
  constructor
  · intro hv
    rw [generate_validation_fail env s hv]
    exact ⟨rfl, rfl⟩
  · intro hc hp hi
    rw [generate_run env s hc hp]
    have hpem : (keyStep s).2.privateKey = s.privateKey := (keyStep_fields s).2.2.1
    have hi2 : env.importPKCS8 ((keyStep s).2).privateKey = none := by
      rw [hpem]; exact hi
    rw [afterKeyPair_import_fail env _ _ hi2]
    exact ⟨rfl, (keyStep_fields s).2.2.2.2.1⟩

/-- Witness for C6: one concrete validation failure and one concrete
key-import failure. -/
theorem claim6_witness :
    ((generateTokens envBad stEmpty).error = some GenError.validationError ∧
     (generateTokens envBad stEmpty).tokens = stEmpty.tokens) ∧
    ((generateTokens envBad stReady).error = some GenError.keyImportError ∧
     (generateTokens envBad stReady).tokens = stReady.tokens) :=
  ⟨(claim6_failure_modes envBad stEmpty).1 (Or.inl rfl),
   (claim6_failure_modes envBad stReady).2 (by decide) (by decide) rfl⟩

/-- C7: the client assertion of every successful call has header alg
ES256 and typ JWT with no jwk member, claims iss = sub = clientId, aud
the fixed authorization-server identifier, iat from the call clock,
exp = iat + 120 and the first fresh jti draw of the call, and it is
signed with the imported caller-supplied key, not the session DPoP key. -/
theorem claim7_client_assertion (env : Env) (s : AppState) (b : GeneratedTokens)
    (hok : (generateTokens env s).error = none)
    (hb : (generateTokens env s).tokens = some b) :
    ∃ k, env.importPKCS8 s.privateKey = some k ∧
      b.clientAssertion.header = { alg := "ES256", typ := "JWT", jwk := none } ∧
      b.clientAssertion.claims.iss = some s.clientId ∧
      b.clientAssertion.claims.sub = some s.clientId ∧
      b.clientAssertion.claims.aud = some AUD ∧
      b.clientAssertion.claims.iat = env.nowTime ∧
      b.clientAssertion.claims.exp = env.nowTime + ASSERTION_LIFETIME_SEC ∧
      b.clientAssertion.claims.jti = generateJti s.nextJti ∧
      b.clientAssertion.signedWith = SignKey.imported k := by
  obtain ⟨k, hi, hbeq⟩ := generate_bundle_spec env s b hok hb
  refine ⟨k, hi, ?_⟩
  rw [hbeq]
  exact ⟨rfl, rfl, rfl, rfl, rfl, rfl, rfl, rfl⟩

/-- Witness for C7 at a concrete successful call. -/
theorem claim7_witness :
    bundleW.clientAssertion.header = { alg := "ES256", typ := "JWT", jwk := none } ∧
    bundleW.clientAssertion.claims.aud = some AUD ∧
    bundleW.clientAssertion.signedWith = SignKey.imported { sid := 0 } := by
  obtain ⟨k, hi, h1, h2, h3, h4, h5, h6, h7, h8⟩ :=
    claim7_client_assertion envOk stReady bundleW (by decide) (by decide)
  have hk : k = { sid := 0 } := (Option.some.inj hi).symm
  exact ⟨h1, h4, hk ▸ h8⟩

/-- C8: each of the three DPoP proofs of every successful call has header
alg ES256, typ dpop+jwt and the session public JWK, is signed with the
session private key, and carries htm POST with the PAR endpoint, htm POST
with the token endpoint, and htm GET with the userinfo endpoint
respectively. -/
theorem claim8_dpop_proofs (env : Env) (s : AppState) (b : GeneratedTokens)
    (hok : (generateTokens env s).error = none)
    (hb : (generateTokens env s).tokens = some b) :
    ∃ kp, (generateTokens env s).dpopKeyPair = some kp ∧
      b.parDPoP.header =
        { alg := "ES256", typ := "dpop+jwt", jwk := some (exportJWK kp.publicKey) } ∧
      b.parDPoP.signedWith = SignKey.sessionPriv kp.privateKey ∧
      b.parDPoP.claims.htm = some "POST" ∧
      b.parDPoP.claims.htu = some PAR_HTU ∧
      b.tokenDPoP.header =
        { alg := "ES256", typ := "dpop+jwt", jwk := some (exportJWK kp.publicKey) } ∧
      b.tokenDPoP.signedWith = SignKey.sessionPriv kp.privateKey ∧
      b.tokenDPoP.claims.htm = some "POST" ∧
      b.tokenDPoP.claims.htu = some TOKEN_HTU ∧
      b.userinfoDPoP.header =
        { alg := "ES256", typ := "dpop+jwt", jwk := some (exportJWK kp.publicKey) } ∧
      b.userinfoDPoP.signedWith = SignKey.sessionPriv kp.privateKey ∧
      b.userinfoDPoP.claims.htm = some "GET" ∧
      b.userinfoDPoP.claims.htu = some USERINFO_HTU := by
  obtain ⟨k, hi, hbeq⟩ := generate_bundle_spec env s b hok hb
  refine ⟨(keyStep s).1, generate_success_keypair env s hok, ?_⟩
  rw [hbeq]
  exact ⟨rfl, rfl, rfl, rfl, rfl, rfl, rfl, rfl, rfl, rfl, rfl, rfl⟩

/-- Witness for C8 at a concrete successful call. -/
theorem claim8_witness :
    bundleW.parDPoP.claims.htu = some PAR_HTU ∧
    bundleW.tokenDPoP.claims.htu = some TOKEN_HTU ∧
    bundleW.userinfoDPoP.claims.htu = some USERINFO_HTU ∧
    bundleW.userinfoDPoP.claims.htm = some "GET" := by
  obtain ⟨kp, hkp, h1, h2, h3, h4, h5, h6, h7, h8, h9, h10, h11, h12⟩ :=
    claim8_dpop_proofs envOk stReady bundleW (by decide) (by decide)
  exact ⟨h4, h8, h12, h11⟩

/-- C9: generate is not atomic on session key-pair state: a first call
that creates a fresh DPoP key pair and then fails at the signing-key
importing step nevertheless retains that pair in session state, and a
subsequent successful call reuses it instead of minting another one (no
further key draw happens and the new bundle is built over it). -/
theorem claim9_keypair_retained (env env1 : Env) (s : AppState)
    (h0 : s.dpopKeyPair = none) (hc : s.clientId ≠ "") (hp : s.privateKey ≠ "")
    (hi : env.importPKCS8 s.privateKey = none)
    (k : SigningKey) (hi1 : env1.importPKCS8 s.privateKey = some k) :
    (generateTokens env s).error = some GenError.keyImportError ∧
    (generateTokens env s).dpopKeyPair = some (mkKeyPair s.nextKeyId) ∧
    (generateTokens env1 (generateTokens env s)).error = none ∧
    (generateTokens env1 (generateTokens env s)).dpopKeyPair =
      some (mkKeyPair s.nextKeyId) ∧
    (generateTokens env1 (generateTokens env s)).nextKeyId =
      (generateTokens env s).nextKeyId ∧
    ∃ b, (generateTokens env1 (generateTokens env s)).tokens = some b ∧
      b.dpopPublicJwk = exportJWK (mkKeyPair s.nextKeyId).publicKey := by
  have heq1 : generateTokens env s =
      { s with dpopKeyPair := some (mkKeyPair s.nextKeyId),
               nextKeyId := s.nextKeyId + 1,
               error := some GenError.keyImportError } := by
    rw [generate_run env s hc hp, keyStep_of_none s h0]
    exact afterKeyPair_import_fail env _ _ hi
  have hc1 : (generateTokens env s).clientId ≠ "" := by rw [heq1]; exact hc
  have hp1 : (generateTokens env s).privateKey ≠ "" := by rw [heq1]; exact hp
  have hkp1 : (generateTokens env s).dpopKeyPair = some (mkKeyPair s.nextKeyId) := by
    rw [heq1]
  have hi1b : env1.importPKCS8 ((generateTokens env s)).privateKey = some k := by
    rw [heq1]; exact hi1
  have heq2 : generateTokens env1 (generateTokens env s) =
      afterKeyPair env1 (generateTokens env s) (mkKeyPair s.nextKeyId) := by
    rw [generate_run env1 (generateTokens env s) hc1 hp1,
      keyStep_of_some (generateTokens env s) (mkKeyPair s.nextKeyId) hkp1]
  have heq3 : generateTokens env1 (generateTokens env s) =
      { (generateTokens env s) with
          error := none,
          tokens := some (buildBundle env1 ((generateTokens env s)).clientId
            ((generateTokens env s)).accessToken k (mkKeyPair s.nextKeyId)
            (exportJWK (mkKeyPair s.nextKeyId).publicKey)
            ((generateTokens env s)).nextJti),
          nextJti := ((generateTokens env s)).nextJti + 4 } := by
    rw [heq2]
    exact afterKeyPair_success env1 (generateTokens env s) (mkKeyPair s.nextKeyId) k hi1b
  refine ⟨by rw [heq1], hkp1, by rw [heq3], ?_, by rw [heq3], ?_⟩
  · rw [heq3]
    exact hkp1
  · refine ⟨buildBundle env1 ((generateTokens env s)).clientId
      ((generateTokens env s)).accessToken k (mkKeyPair s.nextKeyId)
      (exportJWK (mkKeyPair s.nextKeyId).publicKey)
      ((generateTokens env s)).nextJti, ?_, rfl⟩
    rw [heq3]

/-- Witness for C9: a concrete failing-then-succeeding pair of calls. -/
theorem claim9_witness :
    (generateTokens envBad stReady).error = some GenError.keyImportError ∧
    (generateTokens envBad stReady).dpopKeyPair = some (mkKeyPair stReady.nextKeyId) ∧
    (generateTokens envOk (generateTokens envBad stReady)).error = none ∧
    (generateTokens envOk (generateTokens envBad stReady)).dpopKeyPair =
      some (mkKeyPair stReady.nextKeyId) ∧
    (generateTokens envOk (generateTokens envBad stReady)).nextKeyId =
      (generateTokens envBad stReady).nextKeyId ∧
    (generateTokens envOk (generateTokens envBad stReady)).tokens = some bundleW ∧
    bundleW.dpopPublicJwk = exportJWK (mkKeyPair stReady.nextKeyId).publicKey :=
  have h := claim9_keypair_retained envBad envOk stReady rfl (by decide) (by decide) rfl
    { sid := 0 } rfl
  ⟨h.1, h.2.1, h.2.2.1, h.2.2.2.1, h.2.2.2.2.1, by decide, rfl⟩

/-- C10: a failed generate call leaves the previously produced bundle
unchanged: the stored tokens slot is replaced only at the end of a fully
successful call, so after any error the bundle from the last successful
call, if any, is still intact. -/
theorem claim10_bundle_preserved (env : Env) (s : AppState)
    (h : (generateTokens env s).error ≠ none) :
    (generateTokens env s).tokens = s.tokens :=
  (generate_failure_spec env s h).1

/-- Witness for C10 at a concrete failing call. -/
theorem claim10_witness :
    (generateTokens envBad stReady).tokens = stReady.tokens :=
  claim10_bundle_preserved envBad stReady (by decide)
